import Mathlib

/-!
Verification of `models/base_model.py` (NeuTex): a shallow embedding of the
`BaseModel` lifecycle manager — checkpoint path construction, `setup`
orchestration, registry lookup (`get_networks`, `get_current_losses`,
`get_current_visuals`), subnetwork freeze/unfreeze, checkpoint save/load,
and learning-rate scheduling — together with theorems settling the spec
claims about it.

Modelling conventions:
* Python strings are `String`; Python truthiness of a string option value is
  `"" → false, otherwise true` (`truthy`).
* A `state_dict` is an association list `List (String × Int)` from parameter
  names to (abstracted) parameter values.
* The filesystem is a function `String → Option StateDict` from paths to the
  checkpoint contents stored there (`none` = no such file).
* Python exceptions are `Except`: `torch.save` failure is an oracle
  `String → Bool` on paths, `getattr` on a missing attribute is
  `PyErr.attributeError`, a failed `assert` is `PyErr.assertionError`,
  `dict[key]` on a missing key is `PyErr.keyError`.
* `print` output is collected in a `List String` log.
-/

namespace BaseModel

/-- Does the string start with the path separator `/`? -/
def startsWithSlash (s : String) : Bool := s.data.head? == some '/'

/-- Does the string end with the path separator `/`? -/
def endsWithSlash (s : String) : Bool := s.data.getLast? == some '/'

/-- `os.path.join(a, b)` for the two-argument case used by the source:
an absolute second component replaces the first, otherwise the two parts
are joined with exactly one separator. -/
def pathJoin (a b : String) : String :=
  if startsWithSlash b then b
  else if a == "" || endsWithSlash a then a ++ b
  else a ++ "/" ++ b

/-- Python `s.split(sep)` for a one-character separator, as the source uses
it on comma-joined subnetwork name lists. -/
def pySplit (s : String) (sep : Char) : List String :=
  (s.data.splitOn sep).map String.mk

/-- Python truthiness of a string-valued option field (argparse default `""`
behaves like unset). -/
def truthy (s : String) : Bool := s != ""

/-- The fields of the configuration object `opt` that `setup` and the
checkpoint methods read. -/
structure Options where
  is_train : Bool
  load_subnetworks_dir : String
  load_subnetworks : String
  load_subnetworks_epoch : Int
  resume_dir : String
  resume_epoch : Int
  freeze_subnetworks_names : String
  verbose : Bool
deriving DecidableEq

/-- `self.save_dir = os.path.join(opt.checkpoints_dir, opt.name)`. -/
def save_dir (checkpoints_dir name : String) : String :=
  pathJoin checkpoints_dir name

/-- `"{}_net_{}.pth".format(epoch, name)`. -/
def net_filename (epoch : Int) (name : String) : String :=
  toString epoch ++ "_net_" ++ name ++ ".pth"

/-- `"{}_subnet_{}.pth".format(epoch, name)`. -/
def subnet_filename (epoch : Int) (name : String) : String :=
  toString epoch ++ "_subnet_" ++ name ++ ".pth"

/-- `"{}_states.pth".format(epoch)`. -/
def states_filename (epoch : Int) : String :=
  toString epoch ++ "_states.pth"

/-- The full path of a registered network's checkpoint file in `dir`. -/
def netPath (dir : String) (epoch : Int) (name : String) : String :=
  pathJoin dir (net_filename epoch name)

/-- The full path of a subnetwork's checkpoint file in `dir`. -/
def subnetPath (dir : String) (epoch : Int) (name : String) : String :=
  pathJoin dir (subnet_filename epoch name)

/-- The full path of the aggregate other-states checkpoint file in `dir`. -/
def statesPath (dir : String) (epoch : Int) : String :=
  pathJoin dir (states_filename epoch)

/-- The side-effecting operations `setup` can perform, with the arguments
the source passes to them. -/
inductive Op where
  | mkSchedulersOp
  | loadSubnetworksOp (epoch : Int) (names : List String) (dir : String)
  | loadNetworksOp (epoch : Int)
  | freezeSubnetworksOp (names : List String)
  | printNetworksOp (verbose : Bool)
deriving DecidableEq

/-- `BaseModel.setup(opt)` as the sequence of operations it performs, in
source order: scheduler construction when training, subnetwork loading when
`opt.load_subnetworks_dir` is truthy, full-network loading when not training
or `opt.resume_dir` is truthy, freezing when `opt.freeze_subnetworks` is
truthy, then `print_networks`. `is_train` is `self.is_train`. -/
def setup (is_train : Bool) (opt : Options) : List Op :=
  (if is_train then [Op.mkSchedulersOp] else [])
  ++ (if truthy opt.load_subnetworks_dir then
        [Op.loadSubnetworksOp opt.load_subnetworks_epoch
          (pySplit opt.load_subnetworks ',') opt.load_subnetworks_dir]
      else [])
  ++ (if !is_train || truthy opt.resume_dir then
        [Op.loadNetworksOp opt.resume_epoch]
      else [])
  ++ (if truthy opt.freeze_subnetworks_names then
        [Op.freezeSubnetworksOp (pySplit opt.freeze_subnetworks_names ',')]
      else [])
  ++ [Op.printNetworksOp opt.verbose]

/-- Is an op a subnetwork load? -/
def isLoadSubnetworksOp : Op → Bool
  | Op.loadSubnetworksOp _ _ _ => true
  | _ => false

/-- Is an op a full-network load? -/
def isLoadNetworksOp : Op → Bool
  | Op.loadNetworksOp _ => true
  | _ => false

/-- Is an op a subnetwork freeze? -/
def isFreezeSubnetworksOp : Op → Bool
  | Op.freezeSubnetworksOp _ => true
  | _ => false

/-- Position of the first op satisfying `p` in a trace. -/
def opIdx (p : Op → Bool) (t : List Op) : Option Nat := t.findIdx? p

/-- The order the claim asserts for `setup`: subnetwork load strictly before
freeze, freeze strictly before full-network load. -/
def claimedSetupOrder (t : List Op) : Bool :=
  match opIdx isLoadSubnetworksOp t, opIdx isFreezeSubnetworksOp t,
      opIdx isLoadNetworksOp t with
  | some i, some j, some k => decide (i < j) && decide (j < k)
  | _, _, _ => false

/-- A `state_dict`: parameter names mapped to abstracted parameter values. -/
abbrev StateDict := List (String × Int)

/-- The key set of a state dict. -/
def sdKeys (sd : StateDict) : List String := sd.map Prod.fst

/-- Value stored under key `k`, if any. -/
def sdLookup (sd : StateDict) (k : String) : Option Int :=
  (sd.find? (fun p => p.1 == k)).map Prod.snd

/-- Do `net` and `sd` have exactly the same key set (the condition a
`strict=True` load checks)? -/
def keysMatch (net sd : StateDict) : Bool :=
  (sdKeys net).all (fun k => (sdKeys sd).contains k)
    && (sdKeys sd).all (fun k => (sdKeys net).contains k)

/-- Copy every parameter of `net` that `sd` also has from `sd`, keeping the
rest: what a successful `load_state_dict` leaves in the module. -/
def applySD (net sd : StateDict) : StateDict :=
  net.map (fun p => (p.1, (sdLookup sd p.1).getD p.2))

/-- `net.load_state_dict(state_dict, strict)`: with `strict=True` the key
sets must coincide or the call raises; matching keys are copied. -/
def load_state_dict (net sd : StateDict) (strict : Bool) : Except Unit StateDict :=
  if strict && !keysMatch net sd then Except.error ()
  else Except.ok (applySD net sd)

/-- The loop of `load_subnetworks`, over the `(name, net)` items of the
subnetwork map: a name outside the requested set is skipped silently; a
missing checkpoint file is logged (`cannot load <path>`) and skipped; an
existing file is loaded with `strict=True`, a strict mismatch raising out of
the whole call. Returns the updated subnetworks and the printed log. -/
def load_subnetworks_go (dir : String) (epoch : Int) (nameSet : List String)
    (fs : String → Option StateDict) :
    List (String × StateDict) → Except Unit (List (String × StateDict) × List String)
  | [] => Except.ok ([], [])
  | (name, net) :: rest =>
    if nameSet.contains name then
      let path := subnetPath dir epoch name
      match fs path with
      | none => do
        let (r, log) ← load_subnetworks_go dir epoch nameSet fs rest
        Except.ok ((name, net) :: r, ("cannot load " ++ path) :: log)
      | some sd =>
        match load_state_dict net sd true with
        | Except.error e => Except.error e
        | Except.ok net' => do
          let (r, log) ← load_subnetworks_go dir epoch nameSet fs rest
          Except.ok ((name, net') :: r, log)
    else do
      let (r, log) ← load_subnetworks_go dir epoch nameSet fs rest
      Except.ok ((name, net) :: r, log)

/-- `BaseModel.load_subnetworks(epoch, names=None, resume_dir=None)`:
`subnets` is the map returned by `get_subnetworks()`; `names=None` defaults
to all of its keys; `resume_dir=None` defaults to `self.opt.resume_dir`. -/
def load_subnetworks (subnets : List (String × StateDict)) (epoch : Int)
    (names : Option (List String)) (resume_dir : Option String)
    (opt_resume_dir : String) (fs : String → Option StateDict) :
    Except Unit (List (String × StateDict) × List String) :=
  let nameSet := match names with
    | none => subnets.map Prod.fst
    | some ns => ns
  let dir := match resume_dir with
    | some d => d
    | none => opt_resume_dir
  load_subnetworks_go dir epoch nameSet fs subnets

/-- The loop of `load_networks`, over `zip(model_names, get_networks())`:
every name is first logged (`loading <name>`); a missing checkpoint file is
logged and skipped; an existing file is loaded with `strict=False`. -/
def load_networks_go (dir : String) (epoch : Int)
    (fs : String → Option StateDict) :
    List (String × StateDict) → Except Unit (List (String × StateDict) × List String)
  | [] => Except.ok ([], [])
  | (name, net) :: rest =>
    let path := netPath dir epoch name
    match fs path with
    | none => do
      let (r, log) ← load_networks_go dir epoch fs rest
      Except.ok ((name, net) :: r, ("loading " ++ name) :: ("cannot load " ++ path) :: log)
    | some sd =>
      match load_state_dict net sd false with
      | Except.error e => Except.error e
      | Except.ok net' => do
        let (r, log) ← load_networks_go dir epoch fs rest
        Except.ok ((name, net') :: r, ("loading " ++ name) :: log)

/-- `BaseModel.load_networks(epoch)`: `nets` pairs each registered model
name with its network's state; the load directory is `self.opt.resume_dir`. -/
def load_networks (nets : List (String × StateDict)) (epoch : Int)
    (opt_resume_dir : String) (fs : String → Option StateDict) :
    Except Unit (List (String × StateDict) × List String) :=
  load_networks_go opt_resume_dir epoch fs nets

/-- `BaseModel.save_subnetworks(epoch)`: one `torch.save` per subnetwork; the
whole loop body sits in `try/except`, so a failing save (the `saveFails`
oracle) is logged and the loop continues; the call always returns. -/
def save_subnetworks (subnet_names : List String) (saveDir : String)
    (epoch : Int) (saveFails : String → Bool) : Except String (List String) :=
  Except.ok (subnet_names.foldl
    (fun log name =>
      let path := subnetPath saveDir epoch name
      if saveFails path then log ++ ["exception: " ++ path] else log)
    [])

/-- `BaseModel.save_networks(epoch, other_states={})`: one guarded
`torch.save` per registered network (failures logged, loop continues),
followed by an UNGUARDED `torch.save` of `other_states`, whose failure
propagates to the caller. -/
def save_networks (model_names : List String) (saveDir : String)
    (epoch : Int) (saveFails : String → Bool) : Except String (List String) :=
  let log := model_names.foldl
    (fun log name =>
      let path := netPath saveDir epoch name
      if saveFails path then log ++ ["exception: " ++ path] else log)
    []
  if saveFails (statesPath saveDir epoch) then
    Except.error ("exception: " ++ statesPath saveDir epoch)
  else Except.ok log

/-- A Python attribute value, as far as the registry getters inspect it:
either an `nn.Module` (carrying its state dict) or some non-module value. -/
inductive PyVal where
  | module (sd : StateDict)
  | nonModule (v : Int)
deriving DecidableEq

/-- The Python exceptions the registry and subnetwork code can raise. -/
inductive PyErr where
  | attributeError (name : String)
  | assertionError
  | keyError (name : String)
deriving DecidableEq

/-- `BaseModel.get_networks()`: resolve each registered model name through
`getattr(self, "net_" + name)`. A missing attribute raises `AttributeError`
(from `getattr`); an attribute that is not an `nn.Module` fails the
`isinstance` assertion. `attrs` is the object's attribute table. -/
def get_networks (model_names : List String) (attrs : String → Option PyVal) :
    Except PyErr (List StateDict) :=
  match model_names with
  | [] => Except.ok []
  | name :: rest =>
    match attrs ("net_" ++ name) with
    | none => Except.error (PyErr.attributeError ("net_" ++ name))
    | some (PyVal.module m) => do
      let ms ← get_networks rest attrs
      Except.ok (m :: ms)
    | some (PyVal.nonModule _) => Except.error PyErr.assertionError

/-- `BaseModel.get_current_losses()`: resolve each registered loss name
through `getattr(self, "loss_" + name)`. A missing attribute raises
`AttributeError`; no check is made on the attribute's kind. -/
def get_current_losses (loss_names : List String)
    (attrs : String → Option PyVal) : Except PyErr (List (String × PyVal)) :=
  match loss_names with
  | [] => Except.ok []
  | name :: rest =>
    match attrs ("loss_" ++ name) with
    | none => Except.error (PyErr.attributeError ("loss_" ++ name))
    | some v => do
      let ms ← get_current_losses rest attrs
      Except.ok ((name, v) :: ms)

/-- `BaseModel.get_current_visuals()`: resolve each registered visual name
through `getattr(self, name)`. A missing attribute raises `AttributeError`;
no check is made on the attribute's kind. -/
def get_current_visuals (visual_names : List String)
    (attrs : String → Option PyVal) : Except PyErr (List (String × PyVal)) :=
  match visual_names with
  | [] => Except.ok []
  | name :: rest =>
    match attrs name with
    | none => Except.error (PyErr.attributeError name)
    | some v => do
      let ms ← get_current_visuals rest attrs
      Except.ok ((name, v) :: ms)

/-- A subnetwork, for freezing purposes: the `requires_grad` flag of each of
its parameters. -/
abbrev GradNet := List Bool

/-- `net.requires_grad_(b)` on the subnetwork named `n` of the map:
every parameter flag of that entry becomes `b`. -/
def setGrad (nets : List (String × GradNet)) (n : String) (b : Bool) :
    List (String × GradNet) :=
  nets.map (fun p => if p.1 == n then (p.1, p.2.map (fun _ => b)) else p)

/-- The loop shared by `freeze_subnetworks` and `unfreeze_subnetworks`:
`nets[name].requires_grad_(b)` for each requested name, raising `KeyError`
when a name is not in the subnetwork map. -/
def setGradLoop (b : Bool) (nets : List (String × GradNet)) :
    List String → Except PyErr (List (String × GradNet))
  | [] => Except.ok nets
  | n :: rest =>
    if nets.any (fun p => p.1 == n) then setGradLoop b (setGrad nets n b) rest
    else Except.error (PyErr.keyError n)

/-- `BaseModel.freeze_subnetworks(network_names)`:
`get_subnetworks()[name].requires_grad_(False)` for each name. -/
def freeze_subnetworks (nets : List (String × GradNet)) (names : List String) :
    Except PyErr (List (String × GradNet)) :=
  setGradLoop false nets names

/-- `BaseModel.unfreeze_subnetworks(network_names)`:
`get_subnetworks()[name].requires_grad_(True)` for each name. -/
def unfreeze_subnetworks (nets : List (String × GradNet)) (names : List String) :
    Except PyErr (List (String × GradNet)) :=
  setGradLoop true nets names

/-- One `scheduler.step()` of the external scheduler, abstracted as a step
counter increment. -/
def scheduler_step (s : Nat) : Nat := s + 1

/-- The first loop of `update_learning_rate`: `scheduler.step()` for every
scheduler in `self.schedulers`, in order. -/
def stepAll : List Nat → List Nat
  | [] => []
  | s :: rest => scheduler_step s :: stepAll rest

/-- The second loop of `update_learning_rate`: for each optimizer (holding
`param_groups[0]["lr"]`), print the learning-rate line when `verbose`. -/
def lrReport (verbose : Bool) (i : Nat) : List Int → List String
  | [] => []
  | lr :: rest =>
    (if verbose then
      ["optimizer " ++ toString (i + 1) ++ ", learning rate = " ++ toString lr]
    else [])
      ++ lrReport verbose (i + 1) rest

/-- `BaseModel.update_learning_rate(verbose=False)`: step every scheduler,
then report each optimizer's current learning rate when verbose. Returns the
stepped schedulers and the printed log. -/
def update_learning_rate (schedulers : List Nat) (optimizers : List Int)
    (verbose : Bool) : List Nat × List String :=
  (stepAll schedulers, lrReport verbose 0 optimizers)

/-- No strict-load failure at this subnetwork entry: either it is not
requested, or its checkpoint file is absent, or the file's keys match. -/
def goodSubnetFile (dir : String) (epoch : Int) (nameSet : List String)
    (fs : String → Option StateDict) (p : String × StateDict) : Bool :=
  !nameSet.contains p.1 ||
    (match fs (subnetPath dir epoch p.1) with
     | some sd => keysMatch p.2 sd
     | none => true)

/-- What one subnetwork entry becomes after `load_subnetworks`: loaded from
its file when requested and present, untouched otherwise. -/
def subnetUpd (dir : String) (epoch : Int) (nameSet : List String)
    (fs : String → Option StateDict) (p : String × StateDict) :
    String × StateDict :=
  if nameSet.contains p.1 then
    match fs (subnetPath dir epoch p.1) with
    | some sd => (p.1, applySD p.2 sd)
    | none => p
  else p

/-- The `cannot load` messages `load_subnetworks` prints: one per requested
entry whose checkpoint file is absent, in map order. -/
def subnetMissLog (dir : String) (epoch : Int) (nameSet : List String)
    (fs : String → Option StateDict) (l : List (String × StateDict)) :
    List String :=
  l.filterMap (fun p =>
    if nameSet.contains p.1 then
      match fs (subnetPath dir epoch p.1) with
      | some _ => none
      | none => some ("cannot load " ++ subnetPath dir epoch p.1)
    else none)

/-- What one subnetwork entry becomes after a whole `setGradLoop b` pass:
every parameter flag forced to `b` when the entry is named, untouched
otherwise. -/
def updFn (b : Bool) (names : List String) (p : String × GradNet) :
    String × GradNet :=
  if names.contains p.1 then (p.1, p.2.map (fun _ => b)) else p

/-- C1 (counterexample): on a configuration requesting subnetwork loading,
full-network loading and freezing all at once, `setup` does NOT perform them
in the claimed order (subnetwork load, then freeze, then full-network load):
the full-network load (index 2) comes before the freeze (index 3). -/
theorem setup_claim_order_counterexample :
    claimedSetupOrder
        (setup true ⟨true, "pre", "geo", 0, "ckpt", 5, "geo", false⟩) = false
      ∧ opIdx isLoadSubnetworksOp
          (setup true ⟨true, "pre", "geo", 0, "ckpt", 5, "geo", false⟩) = some 1
      ∧ opIdx isLoadNetworksOp
          (setup true ⟨true, "pre", "geo", 0, "ckpt", 5, "geo", false⟩) = some 2
      ∧ opIdx isFreezeSubnetworksOp
          (setup true ⟨true, "pre", "geo", 0, "ckpt", 5, "geo", false⟩) = some 3 := by
  decide

/-- C1 (amended): when subnetwork loading, full-network loading and freezing
are all requested, `setup` performs them in source order: subnetwork load
first, then the full-network load, then the freeze, followed by the network
summary. -/
theorem setup_subnet_load_then_net_load_then_freeze (is_train : Bool)
    (opt : Options)
    (h1 : truthy opt.load_subnetworks_dir = true)
    (h2 : (!is_train || truthy opt.resume_dir) = true)
    (h3 : truthy opt.freeze_subnetworks_names = true) :
    ∃ pre, setup is_train opt =
      pre ++ [Op.loadSubnetworksOp opt.load_subnetworks_epoch
                (pySplit opt.load_subnetworks ',') opt.load_subnetworks_dir,
              Op.loadNetworksOp opt.resume_epoch,
              Op.freezeSubnetworksOp (pySplit opt.freeze_subnetworks_names ','),
              Op.printNetworksOp opt.verbose] := by
  refine ⟨if is_train then [Op.mkSchedulersOp] else [], ?_⟩
  cases is_train <;> simp_all [setup]

/-- Witness for the amended C1 at a concrete configuration. -/
theorem setup_subnet_load_then_net_load_then_freeze_witness :
    ∃ pre, setup true ⟨true, "pre", "geo", 0, "ckpt", 5, "geo", false⟩ =
      pre ++ [Op.loadSubnetworksOp 0 (pySplit "geo" ',') "pre",
              Op.loadNetworksOp 5,
              Op.freezeSubnetworksOp (pySplit "geo" ','),
              Op.printNetworksOp false] :=
  setup_subnet_load_then_net_load_then_freeze true
    ⟨true, "pre", "geo", 0, "ckpt", 5, "geo", false⟩ (by decide) (by decide)
    (by decide)

/-- Computation rule for `Except` bind on an error. -/
@[simp]
theorem except_bind_error {ε α β : Type} (e : ε) (f : α → Except ε β) :
    (Except.error e >>= f) = Except.error e := rfl

/-- Computation rule for `Except` bind on a success. -/
@[simp]
theorem except_bind_ok {ε α β : Type} (a : α) (f : α → Except ε β) :
    (Except.ok a >>= f) = f a := rfl

/-- C2 (counterexample): with one registered network whose save succeeds but
a failing serialization of `other_states`, `save_networks` propagates the
exception instead of returning normally. -/
theorem save_networks_states_exception_propagates :
    save_networks ["a"] "d" 0 (fun p => p == "d/0_states.pth") =
      Except.error "exception: d/0_states.pth" := by
  rfl

/-- C2 (amended): exceptions raised while serializing a registered network
or a subnetwork are caught and logged and the call returns normally; only
the final unguarded `other_states` write of `save_networks` can propagate,
so `save_networks` returns normally whenever that write succeeds. -/
theorem save_serialization_exceptions_caught :
    (∀ (names : List String) (saveDir : String) (epoch : Int)
        (saveFails : String → Bool),
      ∃ log, save_subnetworks names saveDir epoch saveFails = Except.ok log)
  ∧ (∀ (names : List String) (saveDir : String) (epoch : Int)
        (saveFails : String → Bool),
      saveFails (statesPath saveDir epoch) = false →
      ∃ log, save_networks names saveDir epoch saveFails = Except.ok log) := by
  constructor
  · intro names saveDir epoch saveFails
    exact ⟨_, rfl⟩
  · intro names saveDir epoch saveFails h
    unfold save_networks
    rw [h]
    exact ⟨_, rfl⟩

/-- Witness for the amended C2 at a concrete input, a failing network save
included: the call still returns normally. -/
theorem save_serialization_exceptions_caught_witness :
    ∃ log, save_networks ["a"] "d" 0 (fun p => p == "d/0_net_a.pth") =
      Except.ok log :=
  save_serialization_exceptions_caught.2 ["a"] "d" 0
    (fun p => p == "d/0_net_a.pth") (by decide)

/-- C3 (counterexample): a registered model name whose `net_<name>` attribute
does not exist makes `get_networks` fail with an `AttributeError` (raised by
`getattr`), not with an assertion error. -/
theorem get_networks_missing_attr_counterexample :
    get_networks ["a"] (fun _ => none) =
        Except.error (PyErr.attributeError "net_a")
      ∧ PyErr.attributeError "net_a" ≠ PyErr.assertionError := by
  exact ⟨rfl, by decide⟩

/-- A registered model name with no backing attribute makes `get_networks`
fail. -/
theorem get_networks_error_of_missing (names : List String)
    (attrs : String → Option PyVal) (n : String) (hmem : n ∈ names)
    (hnone : attrs ("net_" ++ n) = none) :
    ∃ e, get_networks names attrs = Except.error e := by
  induction names with
  | nil => cases hmem
  | cons name rest ih =>
    rcases List.mem_cons.mp hmem with rfl | hmem'
    · exact ⟨PyErr.attributeError ("net_" ++ n), by simp [get_networks, hnone]⟩
    · cases hattr : attrs ("net_" ++ name) with
      | none =>
        exact ⟨PyErr.attributeError ("net_" ++ name),
          by simp [get_networks, hattr]⟩
      | some v =>
        cases v with
        | module m =>
          obtain ⟨e, he⟩ := ih hmem'
          exact ⟨e, by simp [get_networks, hattr, he]⟩
        | nonModule v =>
          exact ⟨PyErr.assertionError, by simp [get_networks, hattr]⟩

/-- A registered model name whose backing attribute is not a network makes
`get_networks` fail. -/
theorem get_networks_error_of_nonmodule (names : List String)
    (attrs : String → Option PyVal) (n : String) (v : Int) (hmem : n ∈ names)
    (hval : attrs ("net_" ++ n) = some (PyVal.nonModule v)) :
    ∃ e, get_networks names attrs = Except.error e := by
  induction names with
  | nil => cases hmem
  | cons name rest ih =>
    rcases List.mem_cons.mp hmem with rfl | hmem'
    · exact ⟨PyErr.assertionError, by simp [get_networks, hval]⟩
    · cases hattr : attrs ("net_" ++ name) with
      | none =>
        exact ⟨PyErr.attributeError ("net_" ++ name),
          by simp [get_networks, hattr]⟩
      | some w =>
        cases w with
        | module m =>
          obtain ⟨e, he⟩ := ih hmem'
          exact ⟨e, by simp [get_networks, hattr, he]⟩
        | nonModule w =>
          exact ⟨PyErr.assertionError, by simp [get_networks, hattr]⟩

/-- A registered loss name with no backing attribute makes
`get_current_losses` fail with an `AttributeError`. -/
theorem get_current_losses_error_of_missing (names : List String)
    (attrs : String → Option PyVal) (n : String) (hmem : n ∈ names)
    (hnone : attrs ("loss_" ++ n) = none) :
    ∃ m, get_current_losses names attrs =
      Except.error (PyErr.attributeError m) := by
  induction names with
  | nil => cases hmem
  | cons name rest ih =>
    rcases List.mem_cons.mp hmem with rfl | hmem'
    · exact ⟨"loss_" ++ n, by simp [get_current_losses, hnone]⟩
    · cases hattr : attrs ("loss_" ++ name) with
      | none => exact ⟨"loss_" ++ name, by simp [get_current_losses, hattr]⟩
      | some v =>
        obtain ⟨m, hm⟩ := ih hmem'
        exact ⟨m, by simp [get_current_losses, hattr, hm]⟩

/-- A registered visual name with no backing attribute makes
`get_current_visuals` fail with an `AttributeError`. -/
theorem get_current_visuals_error_of_missing (names : List String)
    (attrs : String → Option PyVal) (n : String) (hmem : n ∈ names)
    (hnone : attrs n = none) :
    ∃ m, get_current_visuals names attrs =
      Except.error (PyErr.attributeError m) := by
  induction names with
  | nil => cases hmem
  | cons name rest ih =>
    rcases List.mem_cons.mp hmem with rfl | hmem'
    · exact ⟨n, by simp [get_current_visuals, hnone]⟩
    · cases hattr : attrs name with
      | none => exact ⟨name, by simp [get_current_visuals, hattr]⟩
      | some v =>
        obtain ⟨m, hm⟩ := ih hmem'
        exact ⟨m, by simp [get_current_visuals, hattr, hm]⟩

/-- `get_current_losses` performs no kind check: it can never raise an
assertion error. -/
theorem get_current_losses_no_assertion (names : List String)
    (attrs : String → Option PyVal) :
    get_current_losses names attrs ≠ Except.error PyErr.assertionError := by
  induction names with
  | nil => simp [get_current_losses]
  | cons name rest ih =>
    cases hattr : attrs ("loss_" ++ name) with
    | none => simp [get_current_losses, hattr]
    | some v =>
      cases hrest : get_current_losses rest attrs with
      | error e =>
        have : e ≠ PyErr.assertionError := by
          intro h
          exact ih (h ▸ hrest)
        simp [get_current_losses, hattr, hrest, this]
      | ok r => simp [get_current_losses, hattr, hrest]

/-- `get_current_visuals` performs no kind check: it can never raise an
assertion error. -/
theorem get_current_visuals_no_assertion (names : List String)
    (attrs : String → Option PyVal) :
    get_current_visuals names attrs ≠ Except.error PyErr.assertionError := by
  induction names with
  | nil => simp [get_current_visuals]
  | cons name rest ih =>
    cases hattr : attrs name with
    | none => simp [get_current_visuals, hattr]
    | some v =>
      cases hrest : get_current_visuals rest attrs with
      | error e =>
        have : e ≠ PyErr.assertionError := by
          intro h
          exact ih (h ▸ hrest)
        simp [get_current_visuals, hattr, hrest, this]
      | ok r => simp [get_current_visuals, hattr, hrest]

/-- C3 (amended): a registered name not backed by an attribute of the
expected kind makes the getter fail — with an `AttributeError` when the
attribute is missing; `get_networks` alone additionally checks the kind and
fails its `isinstance` assertion on a non-module attribute, while
`get_current_losses` and `get_current_visuals` never raise assertion
errors. -/
theorem registry_lookup_failure_modes :
    (∀ (names : List String) (attrs : String → Option PyVal) (n : String),
      n ∈ names → attrs ("net_" ++ n) = none →
      ∃ e, get_networks names attrs = Except.error e)
  ∧ (∀ (names : List String) (attrs : String → Option PyVal) (n : String)
        (v : Int),
      n ∈ names → attrs ("net_" ++ n) = some (PyVal.nonModule v) →
      ∃ e, get_networks names attrs = Except.error e)
  ∧ (∀ (attrs : String → Option PyVal) (n : String),
      attrs ("net_" ++ n) = none →
      get_networks [n] attrs = Except.error (PyErr.attributeError ("net_" ++ n)))
  ∧ (∀ (attrs : String → Option PyVal) (n : String) (v : Int),
      attrs ("net_" ++ n) = some (PyVal.nonModule v) →
      get_networks [n] attrs = Except.error PyErr.assertionError)
  ∧ (∀ (names : List String) (attrs : String → Option PyVal) (n : String),
      n ∈ names → attrs ("loss_" ++ n) = none →
      ∃ m, get_current_losses names attrs =
        Except.error (PyErr.attributeError m))
  ∧ (∀ (names : List String) (attrs : String → Option PyVal) (n : String),
      n ∈ names → attrs n = none →
      ∃ m, get_current_visuals names attrs =
        Except.error (PyErr.attributeError m))
  ∧ (∀ (names : List String) (attrs : String → Option PyVal),
      get_current_losses names attrs ≠ Except.error PyErr.assertionError)
  ∧ (∀ (names : List String) (attrs : String → Option PyVal),
      get_current_visuals names attrs ≠ Except.error PyErr.assertionError) := by
  refine ⟨get_networks_error_of_missing, ?_, ?_, ?_,
    get_current_losses_error_of_missing, get_current_visuals_error_of_missing,
    get_current_losses_no_assertion, get_current_visuals_no_assertion⟩
  · intro names attrs n v hmem hval
    exact get_networks_error_of_nonmodule names attrs n v hmem hval
  · intro attrs n h
    simp [get_networks, h]
  · intro attrs n v h
    simp [get_networks, h]

/-- Witness for the amended C3 at concrete inputs. -/
theorem registry_lookup_failure_modes_witness :
    ∃ m, get_current_losses ["b"] (fun _ => none) =
      Except.error (PyErr.attributeError m) :=
  registry_lookup_failure_modes.2.2.2.2.1 ["b"] (fun _ => none) "b"
    (by decide) rfl

/-- When every requested-and-present checkpoint file has matching keys, the
`load_subnetworks` loop succeeds and acts pointwise: requested entries with a
present file are loaded, the others kept, and one `cannot load` line is
printed per requested entry with a missing file. -/
theorem load_subnetworks_go_ok (dir : String) (epoch : Int)
    (nameSet : List String) (fs : String → Option StateDict)
    (subnets : List (String × StateDict))
    (H : ∀ p ∈ subnets, goodSubnetFile dir epoch nameSet fs p = true) :
    load_subnetworks_go dir epoch nameSet fs subnets =
      Except.ok (subnets.map (subnetUpd dir epoch nameSet fs),
        subnetMissLog dir epoch nameSet fs subnets) := by
  induction subnets with
  | nil => rfl
  | cons p rest ih =>
    obtain ⟨name, net⟩ := p
    have hhead : goodSubnetFile dir epoch nameSet fs (name, net) = true :=
      H _ (List.mem_cons_self _ _)
    have ihr := ih (fun q hq => H q (List.mem_cons_of_mem _ hq))
    by_cases hc : name ∈ nameSet
    · cases hfs : fs (subnetPath dir epoch name) with
      | none =>
        simp [load_subnetworks_go, hc, hfs, ihr, subnetUpd, subnetMissLog]
      | some sd =>
        have hkm : keysMatch net sd = true := by
          simpa [goodSubnetFile, hc, hfs] using hhead
        simp [load_subnetworks_go, hc, hfs, ihr, subnetUpd, subnetMissLog,
          load_state_dict, hkm]
    · simp [load_subnetworks_go, hc, ihr, subnetUpd, subnetMissLog]

/-- C4: when a requested subnetwork's checkpoint file is missing, that name
is logged (`cannot load <path>`) and kept unchanged, no exception is raised,
and every requested name whose file exists (with matching keys) is still
loaded. -/
theorem load_subnetworks_missing_file_skipped
    (subnets : List (String × StateDict)) (epoch : Int) (ns : List String)
    (dir ord : String) (fs : String → Option StateDict)
    (nameA : String) (netA : StateDict)
    (H : ∀ p ∈ subnets, goodSubnetFile dir epoch ns fs p = true)
    (hmem : (nameA, netA) ∈ subnets)
    (hns : nameA ∈ ns)
    (hmiss : fs (subnetPath dir epoch nameA) = none) :
    ∃ nets' log,
      load_subnetworks subnets epoch (some ns) (some dir) ord fs =
        Except.ok (nets', log)
      ∧ ("cannot load " ++ subnetPath dir epoch nameA) ∈ log
      ∧ (nameA, netA) ∈ nets'
      ∧ ∀ p ∈ subnets, ∀ sd, p.1 ∈ ns →
          fs (subnetPath dir epoch p.1) = some sd →
          (p.1, applySD p.2 sd) ∈ nets' := by
  refine ⟨subnets.map (subnetUpd dir epoch ns fs),
    subnetMissLog dir epoch ns fs subnets,
    load_subnetworks_go_ok dir epoch ns fs subnets H, ?_, ?_, ?_⟩
  · refine List.mem_filterMap.mpr ⟨(nameA, netA), hmem, ?_⟩
    simp [hns, hmiss]
  · refine List.mem_map.mpr ⟨(nameA, netA), hmem, ?_⟩
    simp [subnetUpd, hns, hmiss]
  · intro p hp sd hc hfs
    refine List.mem_map.mpr ⟨p, hp, ?_⟩
    simp [subnetUpd, hc, hfs]

/-- Witness for C4 at a concrete input: subnetwork `a` has no checkpoint
file, subnetwork `b` has one; `a` is logged and kept, `b` is loaded. -/
theorem load_subnetworks_missing_file_skipped_witness :
    ∃ nets' log,
      load_subnetworks [("a", [("w", 1)]), ("b", [("w", 2)])] 0
          (some ["a", "b"]) (some "d") "" (fun p =>
            if p == "d/0_subnet_b.pth" then some [("w", 5)] else none) =
        Except.ok (nets', log)
      ∧ ("cannot load " ++ subnetPath "d" 0 "a") ∈ log
      ∧ ("a", ([("w", 1)] : StateDict)) ∈ nets'
      ∧ ∀ p ∈ [(("a" : String), ([("w", 1)] : StateDict)), ("b", [("w", 2)])],
          ∀ sd, p.1 ∈ ["a", "b"] →
          (fun p => if p == "d/0_subnet_b.pth" then some [("w", 5)] else none)
              (subnetPath "d" 0 p.1) = some sd →
          (p.1, applySD p.2 sd) ∈ nets' :=
  load_subnetworks_missing_file_skipped
    [("a", [("w", 1)]), ("b", [("w", 2)])] 0 ["a", "b"] "d" ""
    (fun p => if p == "d/0_subnet_b.pth" then some [("w", 5)] else none)
    "a" [("w", 1)] (by decide) (by decide) (by decide) (by decide)

/-- C5: on the same checkpoint contents with a key mismatch,
`load_subnetworks` raises (its `load_state_dict` call passes `strict=True`)
while `load_networks` succeeds and copies the matching keys (its call passes
`strict=False`). -/
theorem subnet_load_strict_net_load_nonstrict
    (name : String) (net sd : StateDict) (epoch : Int) (dir ord : String)
    (fs : String → Option StateDict)
    (h1 : fs (subnetPath dir epoch name) = some sd)
    (h2 : fs (netPath dir epoch name) = some sd)
    (h3 : keysMatch net sd = false) :
    load_subnetworks [(name, net)] epoch none (some dir) ord fs =
        Except.error ()
      ∧ load_networks [(name, net)] epoch dir fs =
        Except.ok ([(name, applySD net sd)], ["loading " ++ name]) := by
  constructor
  · show load_subnetworks_go dir epoch [name] fs [(name, net)] = _
    simp [load_subnetworks_go, h1, load_state_dict, h3]
  · simp [load_networks, load_networks_go, h2, load_state_dict]

/-- Witness for C5 at a concrete input: checkpoint keys `{v}` against
network keys `{w}`. -/
theorem subnet_load_strict_net_load_nonstrict_witness :
    load_subnetworks [("a", [("w", 1)])] 0 none (some "d") ""
        (fun p => if p == "d/0_subnet_a.pth" || p == "d/0_net_a.pth" then
          some [("v", 2)] else none) =
      Except.error ()
    ∧ load_networks [("a", [("w", 1)])] 0 "d"
        (fun p => if p == "d/0_subnet_a.pth" || p == "d/0_net_a.pth" then
          some [("v", 2)] else none) =
      Except.ok ([("a", applySD [("w", 1)] [("v", 2)])], ["loading " ++ "a"]) :=
  subnet_load_strict_net_load_nonstrict "a" [("w", 1)] [("v", 2)] 0 "d" ""
    (fun p => if p == "d/0_subnet_a.pth" || p == "d/0_net_a.pth" then
      some [("v", 2)] else none)
    (by decide) (by decide) (by decide)

/-- C9: in `load_subnetworks`, `names=None` defaults to all keys of the
subnetwork map, and the explicit `resume_dir` argument takes precedence over
(and otherwise defaults to) `opt.resume_dir`, which is then irrelevant. -/
theorem load_subnetworks_defaults (subnets : List (String × StateDict))
    (epoch : Int) (ns : List String) (d ord ordB : String)
    (fs : String → Option StateDict) :
    (load_subnetworks subnets epoch none (some d) ord fs =
      load_subnetworks subnets epoch (some (subnets.map Prod.fst)) (some d)
        ord fs)
  ∧ (load_subnetworks subnets epoch (some ns) (some d) ord fs =
      load_subnetworks subnets epoch (some ns) (some d) ordB fs)
  ∧ (load_subnetworks subnets epoch (some ns) none ord fs =
      load_subnetworks subnets epoch (some ns) (some ord) ordB fs)
  ∧ (load_subnetworks subnets epoch none none ord fs =
      load_subnetworks subnets epoch (some (subnets.map Prod.fst)) (some ord)
        ordB fs) :=
  ⟨rfl, rfl, rfl, rfl⟩

/-- A map that keeps first components intact keeps key-membership tests
intact. -/
theorem any_key_map (f : String × GradNet → String × GradNet)
    (hf : ∀ p, (f p).1 = p.1) (nets : List (String × GradNet)) (m : String) :
    (nets.map f).any (fun p => p.1 == m) = nets.any (fun p => p.1 == m) := by
  induction nets with
  | nil => rfl
  | cons p rest ih => simp [hf, ih]

/-- `setGrad` keeps first components intact. -/
theorem setGrad_fst (n : String) (b : Bool) (p : String × GradNet) :
    ((if p.1 == n then (p.1, p.2.map (fun _ => b)) else p) : String × GradNet).1
      = p.1 := by
  by_cases h : (p.1 == n) = true <;> simp [h]

/-- `updFn` keeps first components intact. -/
theorem updFn_fst (b : Bool) (names : List String) (p : String × GradNet) :
    (updFn b names p).1 = p.1 := by
  by_cases h : p.1 ∈ names <;> simp [updFn, h]

/-- Applying one `requires_grad_(b)` update and then a whole pass over the
remaining names is the same as the whole pass over all the names. -/
theorem updFn_setGrad (b : Bool) (n : String) (rest : List String)
    (p : String × GradNet) :
    updFn b rest (if p.1 == n then (p.1, p.2.map (fun _ => b)) else p) =
      updFn b (n :: rest) p := by
  by_cases h : p.1 = n
  · by_cases h2 : p.1 ∈ rest <;>
      simp [updFn, h, h2, List.map_map, Function.comp]
  · by_cases h2 : p.1 ∈ rest <;> simp [updFn, h, h2]

/-- When every requested name is a key of the subnetwork map, the
freeze/unfreeze loop succeeds and forces every parameter flag of the named
entries to `b`, keeping the others intact. -/
theorem setGradLoop_ok (b : Bool) (names : List String) :
    ∀ nets : List (String × GradNet),
      (∀ n ∈ names, nets.any (fun p => p.1 == n) = true) →
      setGradLoop b nets names = Except.ok (nets.map (updFn b names)) := by
  induction names with
  | nil =>
    intro nets _
    have h : nets.map (updFn b []) = nets := by
      have hid : updFn b [] = id := funext fun p => by simp [updFn]
      rw [hid, List.map_id]
    rw [h]
    rfl
  | cons n rest ih =>
    intro nets H
    have hn : nets.any (fun p => p.1 == n) = true := H n (List.mem_cons_self _ _)
    have Hrest : ∀ m ∈ rest, (setGrad nets n b).any (fun p => p.1 == m) = true := by
      intro m hm
      rw [setGrad, any_key_map _ (setGrad_fst n b)]
      exact H m (List.mem_cons_of_mem _ hm)
    have ihr := ih (setGrad nets n b) Hrest
    rw [setGradLoop, if_pos hn, ihr, setGrad, List.map_map]
    have hfun : (updFn b rest ∘ fun p : String × GradNet =>
        if p.1 == n then (p.1, p.2.map (fun _ => b)) else p) =
          updFn b (n :: rest) :=
      funext (fun p => updFn_setGrad b n rest p)
    rw [hfun]

/-- C6: for names all present in the subclass-supplied subnetwork map,
`freeze_subnetworks` then `unfreeze_subnetworks` on the same names succeeds
and leaves every parameter's gradient-tracking flag of those subnetworks
enabled. -/
theorem freeze_unfreeze_restores_grad (nets : List (String × GradNet))
    (names : List String)
    (H : ∀ n ∈ names, nets.any (fun p => p.1 == n) = true) :
    ∃ netsA netsB,
      freeze_subnetworks nets names = Except.ok netsA
      ∧ unfreeze_subnetworks netsA names = Except.ok netsB
      ∧ ∀ p ∈ netsB, names.contains p.1 = true → ∀ g ∈ p.2, g = true := by
  have h1 : freeze_subnetworks nets names =
      Except.ok (nets.map (updFn false names)) :=
    setGradLoop_ok false names nets H
  have H1 : ∀ n ∈ names,
      (nets.map (updFn false names)).any (fun p => p.1 == n) = true := by
    intro n hn
    rw [any_key_map _ (updFn_fst false names)]
    exact H n hn
  have h2 : unfreeze_subnetworks (nets.map (updFn false names)) names =
      Except.ok ((nets.map (updFn false names)).map (updFn true names)) :=
    setGradLoop_ok true names (nets.map (updFn false names)) H1
  refine ⟨_, _, h1, h2, ?_⟩
  intro p hp hc g hg
  obtain ⟨q, hq, rfl⟩ := List.mem_map.mp hp
  have hkey : names.contains q.1 = true := by
    rw [updFn_fst] at hc
    exact hc
  rw [updFn, if_pos hkey] at hg
  obtain ⟨g0, hg0, rfl⟩ := List.mem_map.mp hg
  rfl

/-- Witness for C6 at a concrete input. -/
theorem freeze_unfreeze_restores_grad_witness :
    ∃ netsA netsB,
      freeze_subnetworks [("a", [false, true])] ["a"] = Except.ok netsA
      ∧ unfreeze_subnetworks netsA ["a"] = Except.ok netsB
      ∧ ∀ p ∈ netsB, (["a"].contains p.1) = true → ∀ g ∈ p.2, g = true :=
  freeze_unfreeze_restores_grad [("a", [false, true])] ["a"] (by decide)

/-- Stepping the schedulers is a pointwise `scheduler_step`. -/
theorem stepAll_eq_map (schedulers : List Nat) :
    stepAll schedulers = schedulers.map scheduler_step := by
  induction schedulers with
  | nil => rfl
  | cons s rest ih => simp [stepAll, ih]

/-- The verbose report has exactly one line per optimizer, with its 1-based
index and learning rate. -/
theorem lrReport_true_eq (l : List Int) :
    ∀ i, lrReport true i l = (List.enumFrom i l).map
      (fun q => "optimizer " ++ toString (q.1 + 1) ++
        ", learning rate = " ++ toString q.2) := by
  induction l with
  | nil => intro i; rfl
  | cons lr rest ih => intro i; simp [lrReport, ih (i + 1), List.enumFrom]

/-- The non-verbose report prints nothing. -/
theorem lrReport_false_eq (l : List Int) : ∀ i, lrReport false i l = [] := by
  induction l with
  | nil => intro i; rfl
  | cons lr rest ih => intro i; simp [lrReport, ih (i + 1)]

/-- C7: each `update_learning_rate` call steps every scheduler exactly once
(the resulting list is the pointwise step of the input), and then prints one
learning-rate line per optimizer when verbose and nothing otherwise. -/
theorem update_learning_rate_steps_each_once (schedulers : List Nat)
    (optimizers : List Int) :
    (∀ verbose, (update_learning_rate schedulers optimizers verbose).1 =
      schedulers.map scheduler_step)
  ∧ ((update_learning_rate schedulers optimizers true).2 =
      (List.enumFrom 0 optimizers).map
        (fun q => "optimizer " ++ toString (q.1 + 1) ++
          ", learning rate = " ++ toString q.2))
  ∧ ((update_learning_rate schedulers optimizers true).2.length =
      optimizers.length)
  ∧ ((update_learning_rate schedulers optimizers false).2 = []) := by
  refine ⟨fun verbose => stepAll_eq_map schedulers, lrReport_true_eq optimizers 0,
    ?_, lrReport_false_eq optimizers 0⟩
  show (lrReport true 0 optimizers).length = optimizers.length
  rw [lrReport_true_eq optimizers 0]
  simp

/-- C8: under a well-formed configuration (nonempty `checkpoints_dir` with no
trailing separator, relative experiment `name` with no trailing separator),
checkpoint files are written under `checkpoints_dir/name/` with the exact
filenames `{epoch}_net_{name}.pth`, `{epoch}_subnet_{name}.pth` and
`{epoch}_states.pth`. -/
theorem checkpoint_paths (checkpoints_dir nm : String) (epoch : Int)
    (n : String)
    (h1 : (checkpoints_dir == "") = false)
    (h2 : endsWithSlash checkpoints_dir = false)
    (h3 : startsWithSlash nm = false)
    (h4 : ((checkpoints_dir ++ "/" ++ nm) == "") = false)
    (h5 : endsWithSlash (checkpoints_dir ++ "/" ++ nm) = false)
    (h6 : startsWithSlash (net_filename epoch n) = false)
    (h7 : startsWithSlash (subnet_filename epoch n) = false)
    (h8 : startsWithSlash (states_filename epoch) = false) :
    netPath (save_dir checkpoints_dir nm) epoch n =
        checkpoints_dir ++ "/" ++ nm ++ "/" ++ net_filename epoch n
      ∧ subnetPath (save_dir checkpoints_dir nm) epoch n =
        checkpoints_dir ++ "/" ++ nm ++ "/" ++ subnet_filename epoch n
      ∧ statesPath (save_dir checkpoints_dir nm) epoch =
        checkpoints_dir ++ "/" ++ nm ++ "/" ++ states_filename epoch
      ∧ net_filename epoch n = toString epoch ++ "_net_" ++ n ++ ".pth"
      ∧ subnet_filename epoch n = toString epoch ++ "_subnet_" ++ n ++ ".pth"
      ∧ states_filename epoch = toString epoch ++ "_states.pth" := by
  have hsd : save_dir checkpoints_dir nm = checkpoints_dir ++ "/" ++ nm := by
    simp [save_dir, pathJoin, h1, h2, h3]
  refine ⟨?_, ?_, ?_, rfl, rfl, rfl⟩
  · simp [netPath, pathJoin, hsd, h4, h5, h6]
  · simp [subnetPath, pathJoin, hsd, h4, h5, h7]
  · simp [statesPath, pathJoin, hsd, h4, h5, h8]

/-- Witness for C8 at a concrete configuration. -/
theorem checkpoint_paths_witness :
    netPath (save_dir "checkpoints" "exp") 3 "geo" =
        "checkpoints" ++ "/" ++ "exp" ++ "/" ++ net_filename 3 "geo"
      ∧ subnetPath (save_dir "checkpoints" "exp") 3 "geo" =
        "checkpoints" ++ "/" ++ "exp" ++ "/" ++ subnet_filename 3 "geo"
      ∧ statesPath (save_dir "checkpoints" "exp") 3 =
        "checkpoints" ++ "/" ++ "exp" ++ "/" ++ states_filename 3
      ∧ net_filename 3 "geo" = toString (3 : Int) ++ "_net_" ++ "geo" ++ ".pth"
      ∧ subnet_filename 3 "geo" =
        toString (3 : Int) ++ "_subnet_" ++ "geo" ++ ".pth"
      ∧ states_filename 3 = toString (3 : Int) ++ "_states.pth" :=
  checkpoint_paths "checkpoints" "exp" 3 "geo" (by decide) (by decide)
    (by decide) (by decide) (by decide) (by decide) (by decide) (by decide)

/-- C10: `setup` invokes `load_networks(opt.resume_epoch)` exactly when the
model is not in training mode (unconditionally, whatever `resume_dir` is) or
when `opt.resume_dir` is set. -/
theorem setup_load_networks_iff (is_train : Bool) (opt : Options) :
    Op.loadNetworksOp opt.resume_epoch ∈ setup is_train opt
      ↔ (is_train = false ∨ truthy opt.resume_dir = true) := by
  cases is_train <;>
    by_cases h1 : truthy opt.load_subnetworks_dir = true <;>
      by_cases h2 : truthy opt.resume_dir = true <;>
        by_cases h3 : truthy opt.freeze_subnetworks_names = true <;>
          simp_all [setup]

end BaseModel
